import Mathlib

/-!
Shallow embedding of fc-profile-builder:
`src/admin/fleetcommander/phial.py` (the minimal router/dispatcher) and
`src/admin/fleetcommander/admin.py` (the session state machine and profile
store).  Request paths are modelled as lists of characters, JSON values as an
inductive type, Python dictionaries as association lists, and uncaught Python
exceptions as explicit `crash` results.
-/

/-- JSON values as produced by Python's json module.  Floats are not used by
any claim and are omitted; integers are unbounded, as in Python. -/
inductive Json where
  | null : Json
  | bool : Bool → Json
  | num : Int → Json
  | str : String → Json
  | arr : List Json → Json
  | obj : List (String × Json) → Json
deriving Repr

mutual

/-- Decidable equality of JSON values (the automatic derivation does not
handle the nested lists). -/
def jsonDecEq : (a b : Json) → Decidable (a = b)
  | .null, .null => .isTrue rfl
  | .bool a, .bool b =>
    match decEq a b with
    | .isTrue h => .isTrue (by rw [h])
    | .isFalse h => .isFalse (fun hh => h (Json.bool.inj hh))
  | .num a, .num b =>
    match decEq a b with
    | .isTrue h => .isTrue (by rw [h])
    | .isFalse h => .isFalse (fun hh => h (Json.num.inj hh))
  | .str a, .str b =>
    match decEq a b with
    | .isTrue h => .isTrue (by rw [h])
    | .isFalse h => .isFalse (fun hh => h (Json.str.inj hh))
  | .arr a, .arr b =>
    match jsonDecEqList a b with
    | .isTrue h => .isTrue (by rw [h])
    | .isFalse h => .isFalse (fun hh => h (Json.arr.inj hh))
  | .obj a, .obj b =>
    match jsonDecEqObj a b with
    | .isTrue h => .isTrue (by rw [h])
    | .isFalse h => .isFalse (fun hh => h (Json.obj.inj hh))
  | .null, .bool _ => .isFalse (by simp)
  | .null, .num _ => .isFalse (by simp)
  | .null, .str _ => .isFalse (by simp)
  | .null, .arr _ => .isFalse (by simp)
  | .null, .obj _ => .isFalse (by simp)
  | .bool _, .null => .isFalse (by simp)
  | .bool _, .num _ => .isFalse (by simp)
  | .bool _, .str _ => .isFalse (by simp)
  | .bool _, .arr _ => .isFalse (by simp)
  | .bool _, .obj _ => .isFalse (by simp)
  | .num _, .null => .isFalse (by simp)
  | .num _, .bool _ => .isFalse (by simp)
  | .num _, .str _ => .isFalse (by simp)
  | .num _, .arr _ => .isFalse (by simp)
  | .num _, .obj _ => .isFalse (by simp)
  | .str _, .null => .isFalse (by simp)
  | .str _, .bool _ => .isFalse (by simp)
  | .str _, .num _ => .isFalse (by simp)
  | .str _, .arr _ => .isFalse (by simp)
  | .str _, .obj _ => .isFalse (by simp)
  | .arr _, .null => .isFalse (by simp)
  | .arr _, .bool _ => .isFalse (by simp)
  | .arr _, .num _ => .isFalse (by simp)
  | .arr _, .str _ => .isFalse (by simp)
  | .arr _, .obj _ => .isFalse (by simp)
  | .obj _, .null => .isFalse (by simp)
  | .obj _, .bool _ => .isFalse (by simp)
  | .obj _, .num _ => .isFalse (by simp)
  | .obj _, .str _ => .isFalse (by simp)
  | .obj _, .arr _ => .isFalse (by simp)

/-- Decidable equality of JSON arrays. -/
def jsonDecEqList : (a b : List Json) → Decidable (a = b)
  | [], [] => .isTrue rfl
  | [], _ :: _ => .isFalse (by simp)
  | _ :: _, [] => .isFalse (by simp)
  | x :: xs, y :: ys =>
    match jsonDecEq x y with
    | .isFalse h => .isFalse (by simp_all)
    | .isTrue h =>
      match jsonDecEqList xs ys with
      | .isTrue h2 => .isTrue (by rw [h, h2])
      | .isFalse h2 => .isFalse (by simp_all)

/-- Decidable equality of JSON object entry lists. -/
def jsonDecEqObj : (a b : List (String × Json)) → Decidable (a = b)
  | [], [] => .isTrue rfl
  | [], _ :: _ => .isFalse (by simp)
  | _ :: _, [] => .isFalse (by simp)
  | (k₁, v₁) :: xs, (k₂, v₂) :: ys =>
    match decEq k₁ k₂ with
    | .isFalse h => .isFalse (by simp_all)
    | .isTrue h =>
      match jsonDecEq v₁ v₂ with
      | .isFalse h2 => .isFalse (by simp_all)
      | .isTrue h2 =>
        match jsonDecEqObj xs ys with
        | .isTrue h3 => .isTrue (by rw [h, h2, h3])
        | .isFalse h3 => .isFalse (by simp_all)

end

instance : DecidableEq Json := jsonDecEq

/-- Python truthiness of a JSON value: None, False, 0, the empty string, the
empty list and the empty dict are falsy. -/
def jsonTruthy : Json → Bool
  | .null => false
  | .bool b => b
  | .num n => n != 0
  | .str s => s != ""
  | .arr l => !l.isEmpty
  | .obj kvs => !kvs.isEmpty

/-- Truthiness of an optional JSON value (a dict `.get(key, None)` result). -/
def optJsonTruthy : Option Json → Bool
  | none => false
  | some j => jsonTruthy j

/-- Python subscript `j[k]` with a string key: defined only on objects that
hold the key; `none` models the KeyError / TypeError raised otherwise. -/
def pyGetItem : Json → String → Option Json
  | .obj kvs, k => kvs.lookup k
  | _, _ => none

/-- Python substring test `needle in hay` on character lists. -/
def pySubstr : List Char → List Char → Bool
  | needle, [] => needle.isPrefixOf []
  | needle, c :: t => needle.isPrefixOf (c :: t) || pySubstr needle t

/-- Python `k in j` for a string `k`: key test on dicts, membership test on
lists, substring test on strings; `none` models the TypeError raised when the
right operand is not a container. -/
def pyContains (j : Json) (k : String) : Option Bool :=
  match j with
  | .obj kvs => some (kvs.any (fun kv => kv.1 == k))
  | .arr l => some (l.any (fun x => x == Json.str k))
  | .str s => some (pySubstr k.data s.data)
  | _ => none

/-- Python `int(x)`: integers pass through, booleans become 0/1, decimal
strings are parsed; `none` models the TypeError/ValueError raised on other
values. -/
def pyInt : Json → Option Int
  | .num n => some n
  | .bool b => some (if b then 1 else 0)
  | .str s => s.toInt?
  | _ => none

/-- Python iteration over a JSON value: lists yield their elements, strings
yield one-character strings, dicts yield their keys; `none` models the
TypeError raised on non-iterable values. -/
def pyIter : Json → Option (List Json)
  | .arr l => some l
  | .str s => some (s.data.map (fun c => Json.str (String.mk [c])))
  | .obj kvs => some (kvs.map (fun kv => Json.str kv.1))
  | _ => none

/-- The list comprehension `[int(x) for x in j]`. -/
def pyIntList (j : Json) : Option (List Int) :=
  (pyIter j).bind (fun l => l.mapM pyInt)

/-- Python dict assignment `d[k] = v` on an association list: replace the
binding when the key is present, append it otherwise. -/
def pySetItem {α : Type} (l : List (String × α)) (k : String) (v : α) :
    List (String × α) :=
  if l.any (fun kv => kv.1 == k) then
    l.map (fun kv => if kv.1 == k then (k, v) else kv)
  else l ++ [(k, v)]

/-- Python `list.remove(x)`: drop the first element equal to `x`. -/
def pyRemoveFirst {α : Type} [DecidableEq α] : List α → α → List α
  | [], _ => []
  | y :: ys, x => if y = x then ys else y :: pyRemoveFirst ys x

/-! ## phial.py: router and dispatcher -/

/-- A matched route's named groups (`matches.groupdict()`); group values are
path fragments. -/
abbrev Params := List (String × List Char)

/-- The request fields the router consults (phial.py, class Request): the
request path with the leading slash already stripped, and the HTTP method. -/
structure Request where
  path : List Char
  method : String

/-- One entry of the route table (phial.py, AppRouter.add): the compiled
pattern — modelled extensionally as the function sending a path to the
match's groupdict, `none` when `pattern.match` fails — the list of allowed
methods, and the handler. -/
structure Route (H : Type) where
  pattern : List Char → Option Params
  methods : List String
  handler : H

/-- The result of AppRouter.find: `(handler, groupdict)` on a match,
`(None, 405)` when the first structural match disallows the method, and
`(None, 404)` when no pattern matches. -/
inductive FindResult (H : Type) where
  | found : H → Params → FindResult H
  | methodNotAllowed : FindResult H
  | noMatch : FindResult H
deriving DecidableEq, Repr

/-- phial.py AppRouter.find: walk the routes in registration order; on the
first pattern match, return 405 if the method is not allowed, otherwise the
handler with the extracted groups; 404 when the table is exhausted. -/
def find {H : Type} (routes : List (Route H)) (request : Request) :
    FindResult H :=
  match routes with
  | [] => .noMatch
  | route :: rest =>
    match route.pattern request.path with
    | some groupdict =>
      if request.method ∈ route.methods then .found route.handler groupdict
      else .methodNotAllowed
    | none => find rest request

/-- phial.py HttpResponse: body content, status code and the content-type
header value. -/
structure HttpResponse where
  content : String
  status : Nat
  mimetype : String
deriving DecidableEq, Repr

/-- The outcome of executing a handler: a normal return, or an uncaught
Python exception carrying its formatted traceback lines. -/
inductive HandlerResult where
  | ok : HttpResponse → HandlerResult
  | exc : List String → HandlerResult
deriving DecidableEq, Repr

/-- phial.py Phial.application, restricted to routing and the handler
boundary: returns the HTTP response handed to the transport, paired with the
lines printed to the server log (the traceback of an intercepted handler
failure).  Dispatch failures become empty 404/405 responses; a handler
failure is intercepted by the bare except and becomes an empty 500 response
whose traceback is printed server-side only.  The function is total: no
handler failure reaches the transport layer. -/
def application {H : Type} (routes : List (Route H))
    (run : H → Params → HandlerResult) (request : Request) :
    HttpResponse × List String :=
  match find routes request with
  | .found handler parms =>
    match run handler parms with
    | .ok response => (response, [])
    | .exc traceback => (⟨"", 500, "text/plain"⟩, traceback)
  | .methodNotAllowed => (⟨"", 405, "text/plain"⟩, [])
  | .noMatch => (⟨"", 404, "text/plain"⟩, [])

/-! ## admin.py: the route table

Each compiled pattern of AdminService.__init__ is translated to a function
from paths to optional groupdicts, following Python 2 `re.match` semantics:
anchored at the start, unanchored at the end unless the pattern ends in `$`,
`.` matching anything but a newline, `\w` matching ASCII alphanumerics and
underscore, and `$` matching at the end or just before a trailing newline. -/

/-- A character matched by the character class `[-\w]`. -/
def wordDashChar (c : Char) : Bool := c.isAlphanum || c == '_' || c == '-'

/-- Match `[-\w]+$` against the remainder of a path, returning the captured
group. -/
def matchWordDashEnd (r : List Char) : Option (List Char) :=
  if !r.isEmpty && r.all wordDashChar then some r
  else if r.getLast? == some '\n' && !r.dropLast.isEmpty
      && r.dropLast.all wordDashChar then some r.dropLast
  else none

/-- Match `(.+)$` against the remainder of a path, returning the captured
group. -/
def matchDotPlusEnd (r : List Char) : Option (List Char) :=
  if !r.isEmpty && r.all (fun c => c != '\n') then some r
  else if r.getLast? == some '\n' && !r.dropLast.isEmpty
      && r.dropLast.all (fun c => c != '\n') then some r.dropLast
  else none

/-- Consume a literal prefix of the path, returning the remainder. -/
def afterLit (lit : List Char) (p : List Char) : Option (List Char) :=
  if lit.isPrefixOf p then some (p.drop lit.length) else none

/-- Pattern `r'^static/(?P<path>.+)$'`. -/
def patStatic (p : List Char) : Option Params :=
  match afterLit "static/".data p with
  | some r => (matchDotPlusEnd r).map (fun g => [("path", g)])
  | none => none

/-- Pattern `'^profiles/$'`. -/
def patProfilesRoot (p : List Char) : Option Params :=
  if p = "profiles/".data ∨ p = "profiles/\n".data then some [] else none

/-- Pattern `'^profiles/save/<id>'`: `<id>` is literal text, not a capture
group, and the pattern is unanchored at the end. -/
def patProfilesSave (p : List Char) : Option Params :=
  if "profiles/save/<id>".data.isPrefixOf p then some [] else none

/-- Pattern `'^profiles/add$'`. -/
def patProfilesAdd (p : List Char) : Option Params :=
  if p = "profiles/add".data ∨ p = "profiles/add\n".data then some [] else none

/-- Pattern `'^profiles/delete/<uid>'`: `<uid>` is literal text. -/
def patProfilesDelete (p : List Char) : Option Params :=
  if "profiles/delete/<uid>".data.isPrefixOf p then some [] else none

/-- Pattern `'^profiles/discard/<id>'`: `<id>` is literal text. -/
def patProfilesDiscard (p : List Char) : Option Params :=
  if "profiles/discard/<id>".data.isPrefixOf p then some [] else none

/-- Pattern `'^profiles/(?P<profile_id>[-\w]+)$'`. -/
def patProfilesId (p : List Char) : Option Params :=
  match afterLit "profiles/".data p with
  | some r => (matchWordDashEnd r).map (fun g => [("profile_id", g)])
  | none => none

/-- Pattern `'^changes'`: an unanchored prefix. -/
def patChanges (p : List Char) : Option Params :=
  if "changes".data.isPrefixOf p then some [] else none

/-- Pattern `'^changes/submit/(?P<name>[-\w]+)$'`. -/
def patChangesSubmit (p : List Char) : Option Params :=
  match afterLit "changes/submit/".data p with
  | some r => (matchWordDashEnd r).map (fun g => [("name", g)])
  | none => none

/-- Pattern `'^changes/select'`: an unanchored prefix. -/
def patChangesSelect (p : List Char) : Option Params :=
  if "changes/select".data.isPrefixOf p then some [] else none

/-- Pattern `'^deploy/(?P<name>[-\w]+)$'`. -/
def patDeploy (p : List Char) : Option Params :=
  match afterLit "deploy/".data p with
  | some r => (matchWordDashEnd r).map (fun g => [("name", g)])
  | none => none

/-- Pattern `'^session/start$'`. -/
def patSessionStart (p : List Char) : Option Params :=
  if p = "session/start".data ∨ p = "session/start\n".data then some []
  else none

/-- Pattern `'^session/stop$'`. -/
def patSessionStop (p : List Char) : Option Params :=
  if p = "session/stop".data ∨ p = "session/stop\n".data then some []
  else none

/-- Pattern `'^$'`. -/
def patEmpty (p : List Char) : Option Params :=
  if p = ([] : List Char) ∨ p = "\n".data then some [] else none

/-- The handler referenced by each route of AdminService.__init__. -/
inductive HName where
  | serve_static : HName
  | profiles : HName
  | profiles_save : HName
  | profiles_add : HName
  | profiles_delete : HName
  | profiles_discard : HName
  | profiles_id : HName
  | changes : HName
  | changes_submit_name : HName
  | changes_select : HName
  | deploy : HName
  | session_start : HName
  | session_stop : HName
  | index : HName
deriving DecidableEq, Repr

/-- The route table of AdminService.__init__, in registration order. -/
def adminRoutes : List (Route HName) :=
  [ ⟨patStatic, ["GET"], .serve_static⟩,
    ⟨patProfilesRoot, ["GET"], .profiles⟩,
    ⟨patProfilesSave, ["POST"], .profiles_save⟩,
    ⟨patProfilesAdd, ["GET"], .profiles_add⟩,
    ⟨patProfilesDelete, ["GET"], .profiles_delete⟩,
    ⟨patProfilesDiscard, ["GET"], .profiles_discard⟩,
    ⟨patProfilesId, ["GET"], .profiles_id⟩,
    ⟨patChanges, ["GET"], .changes⟩,
    ⟨patChangesSubmit, ["POST"], .changes_submit_name⟩,
    ⟨patChangesSelect, ["POST"], .changes_select⟩,
    ⟨patDeploy, ["GET"], .deploy⟩,
    ⟨patSessionStart, ["POST"], .session_start⟩,
    ⟨patSessionStop, ["GET"], .session_stop⟩,
    ⟨patEmpty, ["GET"], .index⟩ ]

/-! ## admin.py: session state machine and profile store -/

/-- Modelled from the spec: `collectors.py` (GoaCollector, GSettingsCollector)
is not under src/ — only its importer admin.py is.  Per spec §4.3 a collector
supports capturing changes, enumerating captured changes with stable 0-based
indices, marking a subset of indices as remembered, and exporting the
remembered subset as a settings payload; we model the observable state those
operations need.  A collector instance, being a Python object, is always
truthy. -/
structure Collector where
  changes : List Json
  selected : List Int
deriving DecidableEq, Repr

/-- The `collectors_by_name` dictionary: namespace name to collector. -/
abbrev Registry := List (String × Collector)

/-- Modelled from the spec: the collector capability `listCaptured`
(`dump_changes`). -/
def dump_changes (c : Collector) : Json := .arr c.changes

/-- Modelled from the spec: the collector capability `markSelected`
(`remember_selected`). -/
def remember_selected (c : Collector) (indices : List Int) : Collector :=
  { c with selected := indices }

/-- Modelled from the spec: the collector capability `exportSettings`
(`get_settings`) — the remembered subset of the captured changes. -/
def get_settings (c : Collector) : Json :=
  .arr (c.selected.filterMap
    (fun i => if i < 0 then none else c.changes.get? i.toNat))

/-- Modelled from the spec: a fresh settings collector, as created on session
start. -/
def GSettingsCollector : Collector := ⟨[], []⟩

/-- Modelled from the spec: a fresh online-accounts collector. -/
def GoaCollector : Collector := ⟨[], []⟩

/-- The `current_session` dictionary of AdminService, by its three keys.
`host` holds whatever JSON value the start request supplied. -/
structure Session where
  host : Option Json
  uid : Option String
  changeset : Option Registry
deriving DecidableEq, Repr

/-- The remote-desktop proxy (`vnc_websocket`), out of scope internally,
modelled at its interface: stop/start and retargeting. -/
structure Vnc where
  running : Bool
  target_host : Option Json
  target_port : Option Int
deriving DecidableEq, Repr

/-- The profiles directory: the JSON content of `index.json` when the file is
present, and the per-profile `<uid>.json` files keyed by uid.  File contents
are modelled as parsed JSON values (serialisation is out of scope per spec
§1). -/
structure FS where
  indexFile : Option Json
  profileFiles : List (String × Json)
deriving DecidableEq, Repr

/-- The mutable state of AdminService. -/
structure AdminState where
  collectors_by_name : Registry
  current_session : Session
  vnc_websocket : Vnc
  fs : FS
deriving DecidableEq, Repr

/-- A handler's returned value: a JSONResponse, or one of admin.py's bare
`(string, status)` tuple returns (used by the profiles_save error paths). -/
inductive HandlerRet where
  | jsonResp : Json → Nat → HandlerRet
  | rawPair : String → Nat → HandlerRet
deriving DecidableEq, Repr

/-- A handler execution: a normal return, or an uncaught Python exception
(which the dispatcher turns into an empty 500, see `application`). -/
inductive HOut where
  | ret : HandlerRet → HOut
  | crash : HOut
deriving DecidableEq, Repr

/-- Modelled from the spec: `JSONResponse` is imported from phial in admin.py
but src/admin/fleetcommander/phial.py does not define it.  Per the spec, every
body is a JSON value and the status defaults to 200 on success; call sites
below pass the status explicitly (200 where admin.py relies on the
default). -/
def JSONResponse (body : Json) (status : Nat) : HandlerRet :=
  .jsonResp body status

/-- The `{"status": "ok"}` success body. -/
def okBody : Json := .obj [("status", .str "ok")]

/-- Truthiness of the optional `uid` string (`not uid`). -/
def optStrTruthy : Option String → Bool
  | none => false
  | some s => s != ""

/-- admin.py check_for_profile_index: create an `index.json` holding the empty
list when the file is absent, leave it alone otherwise.  (A failing write is
caught, logged and ignored in the source; file-system writes are modelled as
succeeding, storage being out of scope per spec §1.) -/
def check_for_profile_index (fs : FS) : FS :=
  match fs.indexFile with
  | some _ => fs
  | none => { fs with indexFile := some (.arr []) }

/-- The literal body `'{"status": "nonexistinguid"}'` returned by
profiles_save. -/
def nonexistinguidBody : String := "\x7b\"status\": \"nonexistinguid\"\x7d"

/-- The literal (malformed) body returned by profiles_save when no changeset
is pending, verbatim from the source. -/
def noChangesetBody : String :=
  "\x7b\"status\"\x7d: \"/changes/select/ change selection has not been submitted yet in the current session\"\x7d"

/-- The literal body returned by profiles_save on a non-object JSON body. -/
def notObjectBody : String :=
  "\x7b\"status\": \"JSON request is not an object\"\x7d"

/-- The literal body returned by profiles_save on missing keys. -/
def missingKeysBody : String :=
  "\x7b\"status\": \"missing key(s) in profile settings request JSON object\"\x7d"

/-- admin.py profiles_save, the POST /profiles/save/<id> handler.  `dataJson`
models `request.get_json()` — `none` meaning the request body is not valid
JSON, so that the call raises (a crash happens only after the uid/changeset
guards, mirroring the statement order of the source). -/
def profiles_save (st : AdminState) (id : String) (dataJson : Option Json) :
    HOut × AdminState :=
  match st.current_session.uid with
  | none => (.ret (.rawPair nonexistinguidBody 403), st)
  | some u =>
    if u == "" || u != id then (.ret (.rawPair nonexistinguidBody 403), st)
    else
      match st.current_session.changeset with
      | none => (.ret (.rawPair noChangesetBody 403), st)
      | some cs =>
        if cs.isEmpty then (.ret (.rawPair noChangesetBody 403), st)
        else
          match dataJson with
          | none => (.crash, st)
          | some (.obj kvs) =>
            if !(["profile-name", "profile-desc", "groups", "users"].all
                (fun k => kvs.any (fun kv => kv.1 == k))) then
              (.ret (.rawPair missingKeysBody 403), st)
            else
              match kvs.lookup "groups" with
              | some (.str gs) =>
                match kvs.lookup "users" with
                | some (.str us) =>
                  match kvs.lookup "profile-name", kvs.lookup "profile-desc" with
                  | some nameVal, some descVal =>
                    let settings : Json :=
                      .obj (cs.map (fun nc => (nc.1, get_settings nc.2)))
                    let groups := ((gs.splitOn ",").map String.trim).filter
                      (fun g => g != "")
                    let users := ((us.splitOn ",").map String.trim).filter
                      (fun v => v != "")
                    let profile : Json := .obj
                      [ ("uid", .str u),
                        ("name", nameVal),
                        ("description", descVal),
                        ("settings", settings),
                        ("applies-to", .obj
                          [ ("users", .arr (users.map Json.str)),
                            ("groups", .arr (groups.map Json.str)) ]),
                        ("etag", .str "placeholder") ]
                    let fs1 := check_for_profile_index st.fs
                    match fs1.indexFile with
                    | some (.arr idx) =>
                      let entry : Json := .obj
                        [("url", .str id), ("displayName", nameVal)]
                      (.ret (JSONResponse okBody 200),
                       { st with
                         current_session :=
                           { st.current_session with
                             uid := none, changeset := none },
                         collectors_by_name := [],
                         fs := { indexFile := some (.arr (idx ++ [entry])),
                                 profileFiles :=
                                   pySetItem fs1.profileFiles id profile } })
                    | _ => (.crash, st)
                  | _, _ => (.crash, st)
                | _ => (.crash, st)
              | _ => (.crash, st)
          | some _ => (.ret (.rawPair notObjectBody 403), st)

/-- The removal loop of admin.py profiles_delete:
`for profile in index: if profile["url"] == uid: index.remove(profile)`.
Python's list iterator walks positions of the list while the body mutates it;
`i` is the iterator's position.  `none` models the KeyError/TypeError raised
when an entry has no subscriptable "url". -/
def removeLoop (uid : String) (l : List Json) (i : Nat) : Option (List Json) :=
  if h : i < l.length then
    let profile := l.get ⟨i, h⟩
    match pyGetItem profile "url" with
    | none => none
    | some v =>
      if v = .str uid then removeLoop uid (pyRemoveFirst l profile) (i + 1)
      else removeLoop uid l (i + 1)
  else
    some l
termination_by l.length - i
decreasing_by
  · have hle : ∀ (m : List Json) (x : Json),
        (pyRemoveFirst m x).length ≤ m.length := by
      intro m x
      induction m with
      | nil => simp [pyRemoveFirst]
      | cons y ys ih =>
        simp only [pyRemoveFirst]
        split
        · simp
        · simpa using Nat.succ_le_succ ih
    have := hle l (l.get ⟨i, h⟩)
    omega
  · omega

/-- admin.py profiles_delete, the handler behind GET /profiles/delete/<uid>.
`os.remove` of a missing profile file is swallowed by the bare except (a
no-op on our file-system model); reading a missing index file raises IOError
(crash).  A non-list index value crashes as soon as the loop subscripts an
iterated element, i.e. unless it is empty. -/
def profiles_delete (st : AdminState) (uid : String) : HOut × AdminState :=
  let fs1 : FS :=
    { st.fs with
      profileFiles := st.fs.profileFiles.eraseP (fun kv => kv.1 == uid) }
  match st.fs.indexFile with
  | none => (.crash, { st with fs := fs1 })
  | some indexJson =>
    match indexJson with
    | .arr idx =>
      match removeLoop uid idx 0 with
      | none => (.crash, { st with fs := fs1 })
      | some idx1 =>
        (.ret (JSONResponse okBody 200),
         { st with fs := { fs1 with indexFile := some (.arr idx1) } })
    | .obj [] =>
      (.ret (JSONResponse okBody 200),
       { st with fs := { fs1 with indexFile := some indexJson } })
    | .str "" =>
      (.ret (JSONResponse okBody 200),
       { st with fs := { fs1 with indexFile := some indexJson } })
    | _ => (.crash, { st with fs := fs1 })

/-- admin.py profiles_discard, the GET /profiles/discard/<id> handler.  The
guard compares `current_session.get('uid', None)` to the id (None never
equals a string); deleting the `changeset` key when it is absent raises
KeyError after the `uid` key is already gone. -/
def profiles_discard (st : AdminState) (id : String) : HOut × AdminState :=
  if st.current_session.uid = some id then
    let st1 : AdminState :=
      { st with current_session := { st.current_session with uid := none } }
    match st.current_session.changeset with
    | none => (.crash, st1)
    | some _ =>
      (.ret (JSONResponse okBody 200),
       { st1 with
         current_session := { st1.current_session with changeset := none } })
  else
    (.ret (JSONResponse
      (.obj [("status", .str ("profile " ++ id ++ " not found"))]) 403), st)

/-- admin.py changes, the GET /changes handler: dump the settings collector's
changes, or 403 with an empty list when it is not in the registry (a present
collector instance is always truthy). -/
def changes (st : AdminState) : HOut × AdminState :=
  match st.collectors_by_name.lookup "org.gnome.gsettings" with
  | some collector => (.ret (JSONResponse (dump_changes collector) 200), st)
  | none => (.ret (JSONResponse (.arr []) 403), st)

/-- The `{"status": "bad JSON data"}` body of changes_select. -/
def badJsonBody : Json := .obj [("status", .str "bad JSON data")]

/-- The `{"status": "bad_form_data"}` body of changes_select. -/
def badFormBody : Json := .obj [("status", .str "bad_form_data")]

/-- The `{"status": "session was not started"}` body of changes_select. -/
def notStartedBody : Json := .obj [("status", .str "session was not started")]

/-- admin.py changes_select, the POST /changes/select handler.  `dataJson`
models `request.get_json()` (`none` = invalid JSON, so the call raises);
`freshUid` models `str(uuid.uuid1().int)`, the freshly generated opaque
token.  On success the given indices are remembered on the settings
collector, the whole registry (with that updated collector) is frozen as the
pending changeset under the token, and the live registry is cleared. -/
def changes_select (st : AdminState) (dataJson : Option Json)
    (freshUid : String) : HOut × AdminState :=
  match dataJson with
  | none => (.crash, st)
  | some data =>
    match data with
    | .obj kvs =>
      if !(kvs.any (fun kv => kv.1 == "sel")) then
        (.ret (JSONResponse badFormBody 403), st)
      else
        match st.collectors_by_name.lookup "org.gnome.gsettings" with
        | none => (.ret (JSONResponse notStartedBody 403), st)
        | some collector =>
          match kvs.lookup "sel" with
          | none => (.crash, st)
          | some selJ =>
            match pyIntList selJ with
            | none => (.crash, st)
            | some selected_indices =>
              let collectors1 := pySetItem st.collectors_by_name
                "org.gnome.gsettings"
                (remember_selected collector selected_indices)
              (.ret (JSONResponse
                 (.obj [("status", .str "ok"), ("uuid", .str freshUid)]) 200),
               { st with
                 collectors_by_name := [],
                 current_session :=
                   { st.current_session with
                     uid := some freshUid, changeset := some collectors1 } })
    | _ => (.ret (JSONResponse badJsonBody 403), st)

/-- The outcome of the outbound `requests.get` call against the remote host:
the raw response content, the result of `json.loads` on it (`none` = the
content is not valid JSON, so parsing raises), and the status code — or a
`requests.exceptions.ConnectionError`. -/
inductive RemoteResult where
  | ok : String → Option Json → Nat → RemoteResult
  | connError : RemoteResult
deriving DecidableEq, Repr

/-- The `{"status": "session already started"}` body of session_start. -/
def alreadyStartedBody : Json :=
  .obj [("status", .str "session already started")]

/-- The body returned by session_start on a falsy JSON payload. -/
def invalidJsonBody : Json :=
  .obj [("status", .str "Request data was not a valid JSON object")]

/-- The body returned by session_start when the payload has no host key. -/
def noHostBody : Json :=
  .obj [("status", .str "no host was specified in POST request")]

/-- The `{"status": "could not connect to host"}` body shared by
session_start and session_stop. -/
def connErrorBody : Json := .obj [("status", .str "could not connect to host")]

/-- The `{"status": "there was no session started"}` body of session_stop. -/
def noSessionBody : Json :=
  .obj [("status", .str "there was no session started")]

/-- admin.py session_start, the POST /session/start handler.  `dataJson`
models `request.get_json()`; `remote` the outcome of `requests.get` against
the requested host.  Note that `current_session` is replaced by
`{'host': data['host']}` before the remote call, and is not reset when the
call raises ConnectionError. -/
def session_start (st : AdminState) (dataJson : Option Json)
    (remote : RemoteResult) : HOut × AdminState :=
  match dataJson with
  | none => (.crash, st)
  | some data =>
    if optJsonTruthy st.current_session.host then
      (.ret (JSONResponse alreadyStartedBody 403), st)
    else if !jsonTruthy data then
      (.ret (JSONResponse invalidJsonBody 403), st)
    else
      match pyContains data "host" with
      | none => (.crash, st)
      | some false => (.ret (JSONResponse noHostBody 403), st)
      | some true =>
        match pyGetItem data "host" with
        | none => (.crash, st)
        | some hostJ =>
          let st1 : AdminState :=
            { st with current_session := ⟨some hostJ, none, none⟩ }
          match remote with
          | .connError => (.ret (JSONResponse connErrorBody 403), st1)
          | .ok content _ status =>
            (.ret (JSONResponse (.str content) status),
             { st1 with
               vnc_websocket := ⟨true, some hostJ, some 5935⟩,
               collectors_by_name :=
                 [ ("org.gnome.gsettings", GSettingsCollector),
                   ("org.gnome.online-accounts", GoaCollector) ] })

/-- admin.py session_stop, the GET /session/stop handler.  `remote` models
the outcome of `requests.get` against the session's host.  Only
ConnectionError is caught (defaulting the reply to the 403 connection
failure); an unparsable response body makes `json.loads` raise before any
local cleanup.  The cleanup — stop the proxy, clear the registry, delete the
host key — runs on both the success and the ConnectionError path, and never
touches the pending uid/changeset. -/
def session_stop (st : AdminState) (remote : RemoteResult) :
    HOut × AdminState :=
  if !optJsonTruthy st.current_session.host then
    (.ret (JSONResponse noSessionBody 403), st)
  else
    let cleaned : AdminState :=
      { st with
        vnc_websocket := { st.vnc_websocket with running := false },
        collectors_by_name := [],
        current_session := { st.current_session with host := none } }
    match remote with
    | .connError => (.ret (JSONResponse connErrorBody 403), cleaned)
    | .ok _ parsed status =>
      match parsed with
      | none => (.crash, st)
      | some msg => (.ret (JSONResponse msg status), cleaned)

/-- Does an index entry's "url" field equal the given uid (the loop's
`profile["url"] == uid` for entries whose subscript succeeds)? -/
def urlMatches (uid : String) (e : Json) : Bool :=
  decide (pyGetItem e "url" = some (.str uid))

/-! ## Concrete states and inputs used by witnesses and counterexamples -/

/-- The admin state at process start: no collectors, empty session, proxy
stopped, empty profiles directory. -/
def stIdle : AdminState := ⟨[], ⟨none, none, none⟩, ⟨false, none, none⟩, ⟨none, []⟩⟩

/-- A state in `ChangesetPending`: host set, registry cleared, pending token
"u" with a frozen settings collector. -/
def stPendingA : AdminState :=
  ⟨[], ⟨some (.str "h"), some "u", some [("org.gnome.gsettings", ⟨[.str "c0"], [0]⟩)]⟩,
   ⟨true, some (.str "h"), some 5935⟩, ⟨some (.arr []), []⟩⟩

/-- A second `ChangesetPending` state, with pending token "u7". -/
def stPendingB : AdminState :=
  ⟨[("org.gnome.gsettings", ⟨[.str "c1"], []⟩)],
   ⟨some (.str "hb"), some "u7", some [("org.gnome.gsettings", ⟨[.str "c1"], [0]⟩)]⟩,
   ⟨true, some (.str "hb"), some 5935⟩, ⟨some (.arr []), []⟩⟩

/-- A `ChangesetPending` state ready for a save under token "p1". -/
def stSaveReady : AdminState :=
  ⟨[], ⟨some (.str "h"), some "p1", some [("org.gnome.gsettings", ⟨[.str "c0"], [0]⟩)]⟩,
   ⟨true, some (.str "h"), some 5935⟩, ⟨some (.arr []), []⟩⟩

/-- A valid JSON payload for a save request. -/
def saveData : Json := .obj
  [ ("profile-name", .str "N"), ("profile-desc", .str "D"),
    ("groups", .str "g1, g2"), ("users", .str "u1") ]

/-- A `ChangesetPending` state ready for a discard under token "p2". -/
def stDiscardReady : AdminState :=
  ⟨[], ⟨some (.str "h"), some "p2", some [("org.gnome.gsettings", ⟨[], []⟩)]⟩,
   ⟨true, some (.str "h"), some 5935⟩, ⟨some (.arr []), []⟩⟩

/-- A `SessionActive` state: host set, both collectors live, the settings
collector holding three captured changes. -/
def stActive : AdminState :=
  ⟨[ ("org.gnome.gsettings", ⟨[.str "c0", .str "c1", .str "c2"], []⟩),
     ("org.gnome.online-accounts", ⟨[], []⟩) ],
   ⟨some (.str "h"), none, none⟩, ⟨true, some (.str "h"), some 5935⟩,
   ⟨some (.arr []), []⟩⟩

/-- The `{"sel": [0, 2]}` selection payload of the spec's concrete
scenario. -/
def selData : Json := .obj [("sel", .arr [.num 0, .num 2])]

/-- The `{"host": "10.0.0.5"}` payload of the spec's concrete scenario. -/
def hostData : Json := .obj [("host", .str "10.0.0.5")]

/-- A profiles directory for the delete scenario: `abc.json` does not exist,
the index holds one entry for "abc" and one for "zzz". -/
def stDeleteReady : AdminState :=
  ⟨[], ⟨none, none, none⟩, ⟨false, none, none⟩,
   ⟨some (.arr [ .obj [("url", .str "abc"), ("displayName", .str "A")],
                 .obj [("url", .str "zzz"), ("displayName", .str "Z")] ]),
    [("zzz", .null)]⟩⟩

/-- A one-route table for the dispatcher witnesses. -/
def c4route : Route Nat := ⟨patChanges, ["GET"], 0⟩

/-- A handler that always raises, with the traceback it produces. -/
def c4run : Nat → Params → HandlerResult :=
  fun _ _ => .exc ["Traceback (most recent call last):", "boom"]

/-- A GET-only route whose pattern matches any path starting with
"changes". -/
def c1routeA : Route Nat := ⟨patChanges, ["GET"], 1⟩

/-- A later route with the same pattern but a broader method set. -/
def c1routeB : Route Nat := ⟨patChanges, ["GET", "POST"], 2⟩

/-- The route of pattern `'^changes'`. -/
def changesRoute : Route HName := ⟨patChanges, ["GET"], .changes⟩

/-- The routes registered before the `'^changes'` route. -/
def adminRoutesBeforeChanges : List (Route HName) :=
  [ ⟨patStatic, ["GET"], .serve_static⟩,
    ⟨patProfilesRoot, ["GET"], .profiles⟩,
    ⟨patProfilesSave, ["POST"], .profiles_save⟩,
    ⟨patProfilesAdd, ["GET"], .profiles_add⟩,
    ⟨patProfilesDelete, ["GET"], .profiles_delete⟩,
    ⟨patProfilesDiscard, ["GET"], .profiles_discard⟩,
    ⟨patProfilesId, ["GET"], .profiles_id⟩ ]

/-- The routes registered after the `'^changes'` route. -/
def adminRoutesAfterChanges : List (Route HName) :=
  [ ⟨patChangesSubmit, ["POST"], .changes_submit_name⟩,
    ⟨patChangesSelect, ["POST"], .changes_select⟩,
    ⟨patDeploy, ["GET"], .deploy⟩,
    ⟨patSessionStart, ["POST"], .session_start⟩,
    ⟨patSessionStop, ["GET"], .session_stop⟩,
    ⟨patEmpty, ["GET"], .index⟩ ]

/-! ## Theorems -/

/-- Routes whose patterns all fail are skipped by `find`. -/
theorem find_append_skip {H : Type} (pre rest : List (Route H))
    (req : Request) (hpre : ∀ r' ∈ pre, r'.pattern req.path = none) :
    find (pre ++ rest) req = find rest req := by
  induction pre with
  | nil => rfl
  | cons r0 pre' ih =>
    have h0 : r0.pattern req.path = none := hpre r0 (by simp)
    simp only [List.cons_append, find, h0]
    exact ih (fun r' h' => hpre r' (by simp [h']))

/-- Claim C9: check_for_profile_index is idempotent — for every starting
state of the profiles directory, calling it twice leaves the index file with
the same content as calling it once; when the index file already exists its
content is unchanged, and when it is absent an empty index is created. -/
theorem c9_ensure_index_idempotent (fs : FS) :
    check_for_profile_index (check_for_profile_index fs) =
      check_for_profile_index fs
    ∧ (check_for_profile_index { fs with indexFile := none }).indexFile =
        some (.arr [])
    ∧ ∀ c, (check_for_profile_index
        { fs with indexFile := some c }).indexFile = some c := by
  refine ⟨?_, rfl, fun c => rfl⟩
  cases h : fs.indexFile <;> simp [check_for_profile_index, h]

/-- Claim C1: for every route table and request, routes are tried in
registration order: with all routes before `r` failing structurally and `r`
matching, a disallowed method yields the 405 decision without consulting any
later route (`post` is arbitrary, so even a later route that matches and
allows the method is never reached), while an allowed method yields `r`'s
handler; and when every route fails structurally the result is the 404
decision. -/
theorem c1_first_match_governs {H : Type} (pre post : List (Route H))
    (r : Route H) (rs : List (Route H)) (req : Request) (ps : Params)
    (hpre : ∀ r' ∈ pre, r'.pattern req.path = none)
    (hr : r.pattern req.path = some ps) :
    (req.method ∉ r.methods →
      find (pre ++ r :: post) req = .methodNotAllowed)
    ∧ (req.method ∈ r.methods →
      find (pre ++ r :: post) req = .found r.handler ps)
    ∧ ∀ req₂ : Request,
      (∀ r' ∈ rs, r'.pattern req₂.path = none) → find rs req₂ = .noMatch := by
  rw [find_append_skip pre (r :: post) req hpre]
  refine ⟨fun hm => ?_, fun hm => ?_, fun req₂ hall => ?_⟩
  · simp [find, hr, hm]
  · simp [find, hr, hm]
  · have : rs = rs ++ [] := by simp
    rw [this, find_append_skip rs [] req₂ hall]
    rfl

/-- Witness for C1 at concrete inputs: a GET-only route followed by a route
with the same pattern also allowing POST; a POST request matching both yields
405, a GET yields the first handler, and a table whose only pattern fails
yields 404. -/
theorem c1_witness :
    find [c1routeA, c1routeB] ⟨"changes".data, "POST"⟩ =
      .methodNotAllowed
    ∧ find [c1routeA, c1routeB] ⟨"changes".data, "GET"⟩ = .found 1 []
    ∧ find [c1routeA] ⟨"profiles/".data, "GET"⟩ = .noMatch := by
  refine ⟨?_, ?_, ?_⟩
  · exact (c1_first_match_governs [] [c1routeB] c1routeA []
      ⟨"changes".data, "POST"⟩ [] (by simp) rfl).1 (by decide)
  · exact (c1_first_match_governs [] [c1routeB] c1routeA []
      ⟨"changes".data, "GET"⟩ [] (by simp) rfl).2.1 (by decide)
  · refine (c1_first_match_governs [] [c1routeB] c1routeA [c1routeA]
      ⟨"changes".data, "GET"⟩ [] (by simp) rfl).2.2
      ⟨"profiles/".data, "GET"⟩ ?_
    intro r' hr'
    simp only [List.mem_singleton] at hr'
    subst hr'
    rfl

/-- Claim C4: when routing found a handler and that handler raises, the
dispatcher intercepts the failure and produces the 500 response with an empty
body; the traceback goes to the server log (the second component), never into
the response handed to the transport, and `application` being total, no
handler failure propagates past it. -/
theorem c4_dispatcher_intercepts {H : Type} (routes : List (Route H))
    (run : H → Params → HandlerResult) (req : Request) (h : H) (ps : Params)
    (trace : List String) (hfind : find routes req = .found h ps)
    (hrun : run h ps = .exc trace) :
    application routes run req = (⟨"", 500, "text/plain"⟩, trace) := by
  simp [application, hfind, hrun]

/-- Witness for C4: a concrete crashing handler behind a matching route. -/
theorem c4_witness :
    application [c4route] c4run ⟨"changes".data, "GET"⟩ =
      (⟨"", 500, "text/plain"⟩,
       ["Traceback (most recent call last):", "boom"]) :=
  c4_dispatcher_intercepts [c4route] c4run ⟨"changes".data, "GET"⟩ 0 []
    ["Traceback (most recent call last):", "boom"] rfl rfl

/-- The two session-guard error strings of profiles_save differ. -/
theorem body_ne₁ : nonexistinguidBody ≠ noChangesetBody := by decide

/-- The bad-JSON error string differs from the uid error string. -/
theorem body_ne₂ : notObjectBody ≠ nonexistinguidBody := by decide

/-- The missing-keys error string differs from the uid error string. -/
theorem body_ne₃ : missingKeysBody ≠ nonexistinguidBody := by decide

/-- The bad-JSON error string differs from the changeset error string. -/
theorem body_ne₄ : notObjectBody ≠ noChangesetBody := by decide

/-- The missing-keys error string differs from the changeset error string. -/
theorem body_ne₅ : missingKeysBody ≠ noChangesetBody := by decide

/-- Past both session guards, profiles_save never returns either
session-guard error. -/
theorem profiles_save_deep_result (st : AdminState) (id : String)
    (dataJson : Option Json) (u : String) (cs : Registry)
    (hu : st.current_session.uid = some u)
    (hune : (u == "" || u != id) = false)
    (hcs : st.current_session.changeset = some cs)
    (hne : cs.isEmpty = false) :
    (profiles_save st id dataJson).1 ≠ .ret (.rawPair nonexistinguidBody 403)
    ∧ (profiles_save st id dataJson).1 ≠
        .ret (.rawPair noChangesetBody 403) := by
  simp only [profiles_save, hu, hune, hcs, hne, Bool.false_eq_true, if_false]
  constructor <;>
  · rcases dataJson with _ | data
    · simp
    · cases data
      case obj kvs =>
        repeat' split
        all_goals
          simp [JSONResponse, body_ne₂, body_ne₃, body_ne₄, body_ne₅]
      all_goals simp [body_ne₂, body_ne₄]

/-- Claim C2 counterexample: with no pending token and no pending changeset
at all, profiles_save fails with the "nonexisting uid" error — not the
distinct "no changeset" error the claim assigns to that state. -/
theorem c2_counterexample :
    (profiles_save stIdle "x" none).1 =
      .ret (.rawPair nonexistinguidBody 403)
    ∧ nonexistinguidBody ≠ noChangesetBody :=
  ⟨rfl, body_ne₁⟩

/-- Claim C2 (amended): profiles_save fails with the "nonexisting uid" error
exactly when the pending token is absent, empty, or differs from the supplied
id; it fails with the distinct "no changeset" error exactly when the uid
guard passes (token present, non-empty and equal to the id) but the pending
changeset is absent or empty; the two error strings are distinct. -/
theorem c2_save_error_cases (st : AdminState) (id : String)
    (dataJson : Option Json) :
    ((profiles_save st id dataJson).1 =
        .ret (.rawPair nonexistinguidBody 403)
      ↔ st.current_session.uid = none ∨ st.current_session.uid = some ""
        ∨ st.current_session.uid ≠ some id)
    ∧ ((profiles_save st id dataJson).1 =
        .ret (.rawPair noChangesetBody 403)
      ↔ ¬(st.current_session.uid = none ∨ st.current_session.uid = some ""
          ∨ st.current_session.uid ≠ some id)
        ∧ (st.current_session.changeset = none
           ∨ st.current_session.changeset = some []))
    ∧ nonexistinguidBody ≠ noChangesetBody := by
  refine ⟨?_, ?_, body_ne₁⟩
  · cases hu : st.current_session.uid with
    | none => simp [profiles_save, hu]
    | some u =>
      by_cases hue : u = ""
      · subst hue
        simp [profiles_save, hu]
      · by_cases hid : u = id
        · have hide : id ≠ "" := hid ▸ hue
          have hg : (u == "" || u != id) = false := by
            simp [hue, hid, hide]
          cases hcs : st.current_session.changeset with
          | none =>
            simp [profiles_save, hu, hg, hcs, hue, hid, hide,
              Ne.symm body_ne₁]
          | some cs =>
            cases hne : cs.isEmpty with
            | true =>
              simp [profiles_save, hu, hg, hcs, hne, hue, hid, hide,
                Ne.symm body_ne₁]
            | false =>
              have hdeep := (profiles_save_deep_result st id dataJson u cs
                hu hg hcs hne).1
              simp [hdeep, hu, hue, hid]
              exact hide
        · have hg : (u == "" || u != id) = true := by simp [hid]
          simp [profiles_save, hu, hg, hue, hid]
  · cases hu : st.current_session.uid with
    | none =>
      simp [profiles_save, hu, Ne.symm body_ne₁]
      exact body_ne₁
    | some u =>
      by_cases hue : u = ""
      · subst hue
        simp [profiles_save, hu, Ne.symm body_ne₁]
        exact body_ne₁
      · by_cases hid : u = id
        · have hide : id ≠ "" := hid ▸ hue
          have hg : (u == "" || u != id) = false := by
            simp [hue, hid, hide]
          cases hcs : st.current_session.changeset with
          | none =>
            simp [profiles_save, hu, hg, hcs, hue, hid, hide]
          | some cs =>
            cases hne : cs.isEmpty with
            | true =>
              have hcs0 : cs = [] := List.isEmpty_iff.mp hne
              subst hcs0
              simp [profiles_save, hu, hg, hcs, hue, hid, hide]
            | false =>
              have hdeep := (profiles_save_deep_result st id dataJson u cs
                hu hg hcs hne).2
              have hcs0 : cs ≠ [] := by
                intro h
                subst h
                simp at hne
              simp [hdeep, hu, hcs, hue, hid, hide, hcs0]
        · have hg : (u == "" || u != id) = true := by simp [hid]
          simp [profiles_save, hu, hg, hue, hid, body_ne₁]

/-- Claim C3 counterexample: a stop that succeeds (remote reached, 200
returned) from a state with a pending token leaves that pending token and
changeset in place — the session is not reset to Idle. -/
theorem c3_counterexample :
    (session_stop stPendingA (.ok "x" (some okBody) 200)).1 =
      .ret (.jsonResp okBody 200)
    ∧ (session_stop stPendingA (.ok "x" (some okBody) 200)).2.current_session.uid = some "u"
    ∧ (session_stop stPendingA (.ok "x" (some okBody) 200)).2.current_session.changeset =
        some [("org.gnome.gsettings", ⟨[.str "c0"], [0]⟩)] :=
  ⟨rfl, rfl, rfl⟩

/-- Claim C3 (amended): after a successful saveProfile the pending token and
changeset are cleared and the collector registry is emptied, but the target
host is left as it was; after a successful discardChangeset the pending token
and changeset are cleared, with registry and host untouched; after a
successful stop the registry is emptied and the host unset, but a pending
token/changeset, if any, survives — so none of the three operations resets
the whole session to Idle. -/
theorem c3_cleanup_per_operation (st₁ st₂ st₃ : AdminState)
    (id₁ id₂ : String) (data₁ : Option Json) (remote₃ : RemoteResult)
    (h₁ : (profiles_save st₁ id₁ data₁).1 = .ret (.jsonResp okBody 200))
    (h₂ : (profiles_discard st₂ id₂).1 = .ret (.jsonResp okBody 200))
    (h₃ : optJsonTruthy st₃.current_session.host = true)
    (h₃' : (session_stop st₃ remote₃).1 ≠ .crash) :
    ((profiles_save st₁ id₁ data₁).2.current_session.uid = none
     ∧ (profiles_save st₁ id₁ data₁).2.current_session.changeset = none
     ∧ (profiles_save st₁ id₁ data₁).2.collectors_by_name = []
     ∧ (profiles_save st₁ id₁ data₁).2.current_session.host =
         st₁.current_session.host)
    ∧ ((profiles_discard st₂ id₂).2.current_session.uid = none
     ∧ (profiles_discard st₂ id₂).2.current_session.changeset = none
     ∧ (profiles_discard st₂ id₂).2.collectors_by_name =
         st₂.collectors_by_name
     ∧ (profiles_discard st₂ id₂).2.current_session.host =
         st₂.current_session.host)
    ∧ ((session_stop st₃ remote₃).2.collectors_by_name = []
     ∧ (session_stop st₃ remote₃).2.current_session.host = none
     ∧ (session_stop st₃ remote₃).2.current_session.uid =
         st₃.current_session.uid
     ∧ (session_stop st₃ remote₃).2.current_session.changeset =
         st₃.current_session.changeset) := by
  refine ⟨?_, ?_, ?_⟩
  · revert h₁
    simp only [profiles_save]
    repeat' split
    all_goals (intro h₁; simp_all [JSONResponse])
  · revert h₂
    simp only [profiles_discard]
    repeat' split
    all_goals (intro h₂; simp_all [JSONResponse])
  · revert h₃'
    simp only [session_stop, h₃]
    repeat' split
    all_goals (intro h₃'; simp_all)

/-- Witness for C3 (amended) at concrete inputs: a successful save, a
successful discard and a successful stop. -/
theorem c3_witness :
    (profiles_save stSaveReady "p1" (some saveData)).2.current_session.uid = none
    ∧ (profiles_discard stDiscardReady "p2").2.current_session.uid = none
    ∧ (session_stop stPendingB .connError).2.collectors_by_name = [] := by
  have h := c3_cleanup_per_operation stSaveReady stDiscardReady stPendingB
    "p1" "p2" (some saveData) RemoteResult.connError rfl rfl rfl (by decide)
  exact ⟨h.1.1, h.2.1.1, h.2.2.1⟩

/-- A successful association-list lookup implies the key test succeeds. -/
theorem lookup_mem_any {α : Type} (l : List (String × α)) (k : String)
    (v : α) (h : l.lookup k = some v) :
    l.any (fun kv => kv.1 == k) = true := by
  induction l with
  | nil => simp [List.lookup] at h
  | cons kv rest ih =>
    obtain ⟨a, b⟩ := kv
    rw [List.lookup] at h
    by_cases hk : k = a
    · simp [hk]
    · have : (k == a) = false := by simp [hk]
      rw [this] at h
      simp [ih h]

/-- Claim C5: changes_select, when the settings-collector namespace is
present and the payload carries a "sel" list of indices, marks the given
indices as remembered on that collector, stores the fresh opaque token as the
pending uid, freezes the entire current registry (with the updated collector)
as the pending changeset, clears the live registry, and returns 200 with the
token; a subsequent GET /changes on the resulting state returns 403 because
no live settings collector remains. -/
theorem c5_select_freezes (st : AdminState) (kvs : List (String × Json))
    (selJ : Json) (idxs : List Int) (c : Collector) (freshUid : String)
    (hsel : kvs.lookup "sel" = some selJ)
    (hcol : st.collectors_by_name.lookup "org.gnome.gsettings" = some c)
    (hint : pyIntList selJ = some idxs) :
    (changes_select st (some (.obj kvs)) freshUid).1 =
      .ret (.jsonResp
        (.obj [("status", .str "ok"), ("uuid", .str freshUid)]) 200)
    ∧ (changes_select st (some (.obj kvs)) freshUid).2.current_session.uid =
        some freshUid
    ∧ (changes_select st (some (.obj kvs)) freshUid).2.current_session.changeset =
        some (pySetItem st.collectors_by_name "org.gnome.gsettings"
          (remember_selected c idxs))
    ∧ (changes_select st (some (.obj kvs)) freshUid).2.collectors_by_name = []
    ∧ (changes (changes_select st (some (.obj kvs)) freshUid).2).1 =
        .ret (.jsonResp (.arr []) 403) := by
  have hany := lookup_mem_any kvs "sel" selJ hsel
  simp [changes_select, hany, hcol, hsel, hint, changes, JSONResponse,
    List.lookup]

/-- Witness for C5 at the spec's concrete scenario: selecting indices 0 and 2
while `SessionActive` yields 200 with the fresh token, and the follow-up GET
/changes yields 403. -/
theorem c5_witness :
    (changes_select stActive (some selData) "12345").1 =
      .ret (.jsonResp
        (.obj [("status", .str "ok"), ("uuid", .str "12345")]) 200)
    ∧ (changes (changes_select stActive (some selData) "12345").2).1 =
        .ret (.jsonResp (.arr []) 403) := by
  have h := c5_select_freezes stActive [("sel", .arr [.num 0, .num 2])]
    (.arr [.num 0, .num 2]) [0, 2] ⟨[.str "c0", .str "c1", .str "c2"], []⟩
    "12345" rfl rfl rfl
  exact ⟨h.1, h.2.2.2.2⟩

/-- Claim C6 counterexample: a start that cannot reach the remote host
returns the connection error, but leaves the session's host field set to the
requested host — a retry then reports "session already started", so the
failed start does leave the session marked as started. -/
theorem c6_counterexample :
    (session_start stIdle (some hostData) .connError).1 =
      .ret (.jsonResp connErrorBody 403)
    ∧ (session_start stIdle (some hostData) .connError).2.current_session.host =
        some (.str "10.0.0.5")
    ∧ (session_start (session_start stIdle (some hostData) .connError).2
        (some hostData) .connError).1 =
        .ret (.jsonResp alreadyStartedBody 403) :=
  ⟨rfl, rfl, rfl⟩

/-- Claim C6 (amended): when start cannot reach the remote host, the caller
receives the connection-error signal (403), the registry, proxy and file
system are untouched, but the transition does not abort the host assignment:
`current_session` keeps `{'host': data['host']}` (dropping any pending
token/changeset), so while the host field holds a truthy value every
subsequent start attempt returns "session already started" until stop is
called. -/
theorem c6_failed_start_keeps_host (st : AdminState) (data hostJ : Json)
    (h₁ : optJsonTruthy st.current_session.host = false)
    (h₂ : jsonTruthy data = true)
    (h₃ : pyContains data "host" = some true)
    (h₄ : pyGetItem data "host" = some hostJ) :
    session_start st (some data) .connError =
      (.ret (.jsonResp connErrorBody 403),
       { st with current_session := ⟨some hostJ, none, none⟩ })
    ∧ (jsonTruthy hostJ = true →
       ∀ (data' : Json) (remote' : RemoteResult),
         (session_start
           { st with current_session := ⟨some hostJ, none, none⟩ }
           (some data') remote').1 =
           .ret (.jsonResp alreadyStartedBody 403)) := by
  constructor
  · simp [session_start, h₁, h₂, h₃, h₄, JSONResponse]
  · intro hh data' remote'
    simp [session_start, optJsonTruthy, hh, JSONResponse]

/-- Witness for C6 (amended) at the spec's concrete host payload. -/
theorem c6_witness :
    session_start stIdle (some hostData) .connError =
      (.ret (.jsonResp connErrorBody 403),
       { stIdle with
         current_session := ⟨some (.str "10.0.0.5"), none, none⟩ })
    ∧ (session_start
        { stIdle with
          current_session := ⟨some (.str "10.0.0.5"), none, none⟩ }
        (some hostData) .connError).1 =
        .ret (.jsonResp alreadyStartedBody 403) := by
  have h := c6_failed_start_keeps_host stIdle hostData (.str "10.0.0.5")
    rfl rfl rfl rfl
  exact ⟨h.1, h.2 rfl hostData .connError⟩

/-- Claim C7 counterexample: stop on an unreachable host reports the failure
and clears registry and host, but the pending token and changeset — the
session's pending state — are not cleared. -/
theorem c7_counterexample :
    (session_stop stPendingB .connError).1 =
      .ret (.jsonResp connErrorBody 403)
    ∧ (session_stop stPendingB .connError).2.collectors_by_name = []
    ∧ (session_stop stPendingB .connError).2.current_session.host = none
    ∧ (session_stop stPendingB .connError).2.current_session.uid = some "u7"
    ∧ (session_stop stPendingB .connError).2.current_session.changeset =
        some [("org.gnome.gsettings", ⟨[.str "c1"], [0]⟩)] :=
  ⟨rfl, rfl, rfl, rfl, rfl⟩

/-- Claim C7 (amended): when the remote host cannot be reached, stop performs
exactly the same local cleanup as on a successful remote round-trip — proxy
stopped, collector registry cleared, host key deleted — and reports the
failure as 403 "could not connect to host"; the pending token/changeset are
not touched on either path. -/
theorem c7_stop_cleanup_on_conn_error (st : AdminState)
    (h : optJsonTruthy st.current_session.host = true) :
    session_stop st .connError =
      (.ret (.jsonResp connErrorBody 403),
       { st with
         vnc_websocket := { st.vnc_websocket with running := false },
         collectors_by_name := [],
         current_session := { st.current_session with host := none } })
    ∧ ∀ (content : String) (msg : Json) (status : Nat),
        (session_stop st (.ok content (some msg) status)).2 =
          (session_stop st .connError).2 := by
  constructor
  · simp [session_stop, h, JSONResponse]
  · intro content msg status
    simp [session_stop, h]

/-- Witness for C7 (amended) at a concrete pending-session state. -/
theorem c7_witness :
    (session_stop stPendingA .connError).1 =
      .ret (.jsonResp connErrorBody 403)
    ∧ (session_stop stPendingA (.ok "c" (some okBody) 200)).2 =
        (session_stop stPendingA .connError).2 := by
  have h := c7_stop_cleanup_on_conn_error stPendingA rfl
  exact ⟨by rw [h.1], h.2 "c" okBody 200⟩

/-- When no remaining entry matches, the deletion loop leaves the index list
unchanged. -/
theorem removeLoop_no_match (uid : String) :
    ∀ (n : Nat) (l : List Json) (i : Nat), l.length - i ≤ n →
    (∀ e ∈ l, urlMatches uid e = false) →
    (∀ e ∈ l, (pyGetItem e "url").isSome = true) →
    removeLoop uid l i = some l := by
  intro n
  induction n with
  | zero =>
    intro l i hn hm hu
    rw [removeLoop]
    have hlt : ¬ i < l.length := by omega
    simp [hlt]
  | succ n ih =>
    intro l i hn hm hu
    rw [removeLoop]
    by_cases hlt : i < l.length
    · have hmem : l.get ⟨i, hlt⟩ ∈ l := l.get_mem i hlt
      obtain ⟨v, hv⟩ := Option.isSome_iff_exists.mp (hu _ hmem)
      have hnm := hm _ hmem
      have hvne : ¬ v = Json.str uid := by
        intro hcontra
        rw [urlMatches, hv, hcontra] at hnm
        simp at hnm
      simp only [dif_pos hlt, hv]
      simp only [if_neg hvne]
      exact ih l (i + 1) (by omega) hm hu
    · simp [hlt]

/-- `pyRemoveFirst` at the first occurrence of an element removes exactly
that position. -/
theorem pyRemoveFirst_first_occurrence (l : List Json) (i : Nat)
    (hi : i < l.length)
    (hfirst : ∀ j, j < i → l.get? j ≠ some (l.get ⟨i, hi⟩)) :
    pyRemoveFirst l (l.get ⟨i, hi⟩) = l.eraseIdx i := by
  induction l generalizing i with
  | nil => simp at hi
  | cons x xs ih =>
    cases i with
    | zero => simp [pyRemoveFirst]
    | succ i' =>
      have hi' : i' < xs.length := by simpa using hi
      have hget : (x :: xs).get ⟨i' + 1, hi⟩ = xs.get ⟨i', hi'⟩ := rfl
      have hx : ¬ x = (x :: xs).get ⟨i' + 1, hi⟩ := by
        intro hcontra
        exact hfirst 0 (Nat.succ_pos i')
          (by rw [List.get?_cons_zero]; exact congrArg some hcontra)
      simp only [pyRemoveFirst, if_neg hx, List.eraseIdx]
      rw [hget]
      rw [ih i' hi' ?_]
      intro j hj hcontra
      exact hfirst (j + 1) (by omega) (by simpa [hget] using hcontra)

/-- The deletion loop, started at position `i` with no match before `i` and
at most one match overall, computes the filter removing the matching
entries. -/
theorem removeLoop_filter (uid : String) :
    ∀ (n : Nat) (l : List Json) (i : Nat), l.length - i ≤ n →
    (∀ e ∈ l, (pyGetItem e "url").isSome = true) →
    l.countP (urlMatches uid) ≤ 1 →
    (∀ (j : Nat) (hj : j < l.length), j < i →
      urlMatches uid (l.get ⟨j, hj⟩) = false) →
    removeLoop uid l i = some (l.filter (fun e => !urlMatches uid e)) := by
  intro n
  induction n with
  | zero =>
    intro l i hn hu hcount hbefore
    have hlt : ¬ i < l.length := by omega
    have hall : ∀ e ∈ l, urlMatches uid e = false := by
      intro e he
      obtain ⟨⟨j, hj⟩, rfl⟩ := List.mem_iff_get.mp he
      exact hbefore j hj (by omega)
    rw [removeLoop]
    simp only [dif_neg hlt]
    congr 1
    symm
    apply List.filter_eq_self.mpr
    intro e he
    simp [hall e he]
  | succ n ih =>
    intro l i hn hu hcount hbefore
    by_cases hlt : i < l.length
    case neg =>
      have hall : ∀ e ∈ l, urlMatches uid e = false := by
        intro e he
        obtain ⟨⟨j, hj⟩, rfl⟩ := List.mem_iff_get.mp he
        exact hbefore j hj (by omega)
      rw [removeLoop]
      simp only [dif_neg hlt]
      congr 1
      symm
      apply List.filter_eq_self.mpr
      intro e he
      simp [hall e he]
    case pos =>
      rw [removeLoop]
      obtain ⟨v, hv⟩ := Option.isSome_iff_exists.mp (hu _ (l.get_mem i hlt))
      by_cases hm : urlMatches uid (l.get ⟨i, hlt⟩) = true
      · have hveq : v = Json.str uid := by
          rw [urlMatches, hv] at hm
          simpa using hm
        subst hveq
        have hfirst : ∀ j, j < i → l.get? j ≠ some (l.get ⟨i, hlt⟩) := by
          intro j hj hcontra
          have hjlt : j < l.length := by omega
          rw [List.get?_eq_get hjlt] at hcontra
          have hje := Option.some.inj hcontra
          have hjf := hbefore j hjlt hj
          rw [hje] at hjf
          rw [hm] at hjf
          exact Bool.noConfusion hjf
        have herase := pyRemoveFirst_first_occurrence l i hlt hfirst
        simp only [dif_pos hlt, hv, if_pos rfl]
        rw [herase, List.eraseIdx_eq_take_drop_succ]
        have hldec : l = l.take i ++ l.get ⟨i, hlt⟩ :: l.drop (i + 1) := by
          conv_lhs => rw [← List.take_append_drop i l]
          congr 1
          rw [List.drop_eq_getElem_cons hlt]
          simp [List.get_eq_getElem]
        have hct : l.countP (urlMatches uid) =
            (l.take i).countP (urlMatches uid) +
              ((l.drop (i + 1)).countP (urlMatches uid) + 1) := by
          conv_lhs => rw [hldec]
          rw [List.countP_append, List.countP_cons, hm]
          simp
        have htake0 : (l.take i).countP (urlMatches uid) = 0 := by omega
        have hdrop0 : (l.drop (i + 1)).countP (urlMatches uid) = 0 := by
          omega
        have htakeall := List.countP_eq_zero.mp htake0
        have hdropall := List.countP_eq_zero.mp hdrop0
        have hallm : ∀ e ∈ l.take i ++ l.drop (i + 1),
            urlMatches uid e = false := by
          intro e he
          rcases List.mem_append.mp he with h | h
          · simpa using htakeall e h
          · simpa using hdropall e h
        have hsub : (l.take i ++ l.drop (i + 1)).Sublist l := by
          rw [← List.eraseIdx_eq_take_drop_succ]
          exact List.eraseIdx_sublist l i
        have hu' : ∀ e ∈ l.take i ++ l.drop (i + 1),
            (pyGetItem e "url").isSome = true :=
          fun e he => hu e (List.Sublist.mem he hsub)
        rw [removeLoop_no_match uid (l.take i ++ l.drop (i + 1)).length _
          (i + 1) (by omega) hallm hu']
        have hft : List.filter (fun e => !urlMatches uid e) (l.take i) =
            l.take i :=
          List.filter_eq_self.mpr (fun a ha => by simp [htakeall a ha])
        have hfd : List.filter (fun e => !urlMatches uid e)
            (l.drop (i + 1)) = l.drop (i + 1) :=
          List.filter_eq_self.mpr (fun a ha => by simp [hdropall a ha])
        conv_rhs => rw [hldec]
        rw [List.filter_append, List.filter_cons]
        rw [hm]
        simp [hft, hfd]
      · have hmf : urlMatches uid (l.get ⟨i, hlt⟩) = false := by
          simpa using hm
        have hvne : ¬ v = Json.str uid := by
          intro hcontra
          rw [urlMatches, hv, hcontra] at hmf
          simp at hmf
        simp only [dif_pos hlt, hv, if_neg hvne]
        apply ih l (i + 1) (by omega) hu hcount
        intro j hj hji
        by_cases hjeq : j = i
        · subst hjeq
          exact hmf
        · exact hbefore j hj (by omega)

/-- Claim C8: profiles_delete treats a missing profile file as a no-op
rather than an error — when `<uid>.json` does not exist (no stored profile
file has that uid) the operation still removes the matching index entry
(index entries carrying a "url" field, with at most one entry matching the
uid, as save-produced indexes have) and returns 200 with body
`{"status": "ok"}`. -/
theorem c8_delete_missing_noop (st : AdminState) (uid : String)
    (entries : List Json)
    (hidx : st.fs.indexFile = some (.arr entries))
    (hurl : ∀ e ∈ entries, (pyGetItem e "url").isSome = true)
    (hone : entries.countP (urlMatches uid) ≤ 1)
    (hmiss : ∀ kv ∈ st.fs.profileFiles, kv.1 ≠ uid) :
    profiles_delete st uid =
      (.ret (.jsonResp okBody 200),
       { st with fs :=
         { indexFile :=
             some (.arr (entries.filter (fun e => !urlMatches uid e))),
           profileFiles := st.fs.profileFiles } }) := by
  have hloop := removeLoop_filter uid entries.length entries 0 (by omega)
    hurl hone (by intro j hj h0; omega)
  have herase : st.fs.profileFiles.eraseP (fun kv => kv.1 == uid) =
      st.fs.profileFiles := by
    apply List.eraseP_of_forall_not
    intro kv hkv
    simp [hmiss kv hkv]
  simp [profiles_delete, hidx, hloop, herase, JSONResponse]

/-- Witness for C8 at the spec's concrete scenario: deleting "abc" while
`abc.json` does not exist still returns 200 ok and drops the "abc" index
entry. -/
theorem c8_witness :
    profiles_delete stDeleteReady "abc" =
      (.ret (.jsonResp okBody 200),
       { stDeleteReady with fs :=
         { indexFile := some (.arr
             [.obj [("url", .str "zzz"), ("displayName", .str "Z")]]),
           profileFiles := [("zzz", .null)] } }) := by
  have h := c8_delete_missing_noop stDeleteReady "abc"
    [ .obj [("url", .str "abc"), ("displayName", .str "A")],
      .obj [("url", .str "zzz"), ("displayName", .str "Z")] ]
    rfl (by decide) (by decide) (by decide)
  simpa using h

/-- The admin route table splits around the `'^changes'` route. -/
theorem adminRoutes_decompose :
    adminRoutes =
      adminRoutesBeforeChanges ++ changesRoute :: adminRoutesAfterChanges :=
  rfl

/-- A path starting with "changes" decomposes into that literal prefix and a
remainder. -/
theorem changes_prefix_decompose (p : List Char)
    (h : "changes".data.isPrefixOf p = true) :
    ∃ rest, p = 'c' :: 'h' :: 'a' :: 'n' :: 'g' :: 'e' :: 's'::rest := by
  rcases p with _ | ⟨a1, _ | ⟨a2, _ | ⟨a3, _ | ⟨a4, _ | ⟨a5, _ | ⟨a6, _ | ⟨a7, p⟩⟩⟩⟩⟩⟩⟩ <;>
    simp [List.isPrefixOf] at h
  obtain ⟨rfl, rfl, rfl, rfl, rfl, rfl, rfl⟩ := h
  exact ⟨p, rfl⟩

/-- On a path starting with "changes", the seven routes registered before
`'^changes'` all fail structurally, while `'^changes'` itself matches with an
empty groupdict. -/
theorem pats_on_changes (rest : List Char) :
    patStatic ('c' :: 'h' :: 'a' :: 'n' :: 'g' :: 'e' :: 's'::rest) = none
    ∧ patProfilesRoot ('c' :: 'h' :: 'a' :: 'n' :: 'g' :: 'e' :: 's'::rest) = none
    ∧ patProfilesSave ('c' :: 'h' :: 'a' :: 'n' :: 'g' :: 'e' :: 's'::rest) = none
    ∧ patProfilesAdd ('c' :: 'h' :: 'a' :: 'n' :: 'g' :: 'e' :: 's'::rest) = none
    ∧ patProfilesDelete ('c' :: 'h' :: 'a' :: 'n' :: 'g' :: 'e' :: 's'::rest) = none
    ∧ patProfilesDiscard ('c' :: 'h' :: 'a' :: 'n' :: 'g' :: 'e' :: 's'::rest) = none
    ∧ patProfilesId ('c' :: 'h' :: 'a' :: 'n' :: 'g' :: 'e' :: 's'::rest) = none
    ∧ patChanges ('c' :: 'h' :: 'a' :: 'n' :: 'g' :: 'e' :: 's'::rest) = some [] := by
  refine ⟨rfl, rfl, rfl, rfl, rfl, rfl, rfl, ?_⟩
  simp [patChanges, List.isPrefixOf]

/-- On a path starting with "changes", dispatch reaches the `'^changes'`
route first: GET selects the changes handler, any other method gets 405. -/
theorem find_on_changes_path (rest : List Char) (m : String) :
    find adminRoutes ⟨'c' :: 'h' :: 'a' :: 'n' :: 'g' :: 'e' :: 's'::rest, m⟩ =
      if m = "GET" then .found HName.changes [] else .methodNotAllowed := by
  obtain ⟨h1, h2, h3, h4, h5, h6, h7, h8⟩ := pats_on_changes rest
  rw [adminRoutes_decompose,
    find_append_skip adminRoutesBeforeChanges
      (changesRoute :: adminRoutesAfterChanges)
      ⟨'c' :: 'h' :: 'a' :: 'n' :: 'g' :: 'e' :: 's'::rest, m⟩ ?_]
  · rw [find]
    have hpat : changesRoute.pattern
        ('c' :: 'h' :: 'a' :: 'n' :: 'g' :: 'e' :: 's'::rest) = some [] := h8
    rw [hpat]
    by_cases hm : m = "GET"
    · simp [hm, changesRoute]
    · simp [hm, changesRoute]
  · intro r' hr'
    simp only [adminRoutesBeforeChanges, List.mem_cons,
      List.not_mem_nil, or_false] at hr'
    rcases hr' with rfl | rfl | rfl | rfl | rfl | rfl | rfl
    exacts [h1, h2, h3, h4, h5, h6, h7]

/-- Once a route's pattern matches, the routes after it are irrelevant to
`find`. -/
theorem find_stops_at_match {H : Type} (pre post post' : List (Route H))
    (r : Route H) (req : Request) (hp : r.pattern req.path ≠ none) :
    find (pre ++ r :: post) req = find (pre ++ r :: post') req := by
  induction pre with
  | nil =>
    simp only [List.nil_append, find]
    cases hr : r.pattern req.path with
    | none => exact absurd hr hp
    | some ps => rfl
  | cons r0 pre' ih =>
    simp only [List.cons_append, find]
    cases hr : r0.pattern req.path with
    | none => exact ih
    | some ps => rfl

/-- A successful dispatch names the handler of a registered route whose
pattern matched. -/
theorem find_found_mem {H : Type} (rs : List (Route H)) (req : Request)
    (h : H) (ps : Params) (hf : find rs req = .found h ps) :
    ∃ r ∈ rs, r.handler = h ∧ r.pattern req.path = some ps := by
  induction rs with
  | nil => simp [find] at hf
  | cons r0 rest ih =>
    rw [find] at hf
    cases hr : r0.pattern req.path with
    | some ps0 =>
      rw [hr] at hf
      by_cases hm : req.method ∈ r0.methods
      · simp only [hm, if_true] at hf
        obtain ⟨hh, hps⟩ := FindResult.found.inj hf
        exact ⟨r0, by simp, hh, by rw [hr, hps]⟩
      · simp [hm] at hf
    | none =>
      rw [hr] at hf
      obtain ⟨r, hmem, hh⟩ := ih hf
      exact ⟨r, by simp [hmem], hh⟩

/-- A prefix of a prefix is a prefix: dropping an appended tail preserves
`isPrefixOf`. -/
theorem isPrefixOf_of_append : ∀ (a b p : List Char),
    (a ++ b).isPrefixOf p = true → a.isPrefixOf p = true := by
  intro a
  induction a with
  | nil =>
    intro b p h
    simp [List.isPrefixOf]
  | cons c a' ih =>
    intro b p h
    cases p with
    | nil => simp [List.isPrefixOf] at h
    | cons d p' =>
      simp only [List.cons_append, List.isPrefixOf, Bool.and_eq_true] at h ⊢
      exact ⟨h.1, ih b p' h.2⟩

/-- When the `'^changes'` pattern fails, so does
`'^changes/submit/(?P<name>[-\w]+)$'`. -/
theorem patChangesSubmit_none (p : List Char)
    (hpc : patChanges p = none) : patChangesSubmit p = none := by
  by_cases hpre : "changes".data.isPrefixOf p = true
  · rw [patChanges, if_pos hpre] at hpc
    cases hpc
  · have hns : ¬ "changes/submit/".data.isPrefixOf p = true := by
      intro hcontra
      have heq : "changes/submit/".data =
          "changes".data ++ "/submit/".data := by decide
      rw [heq] at hcontra
      exact hpre (isPrefixOf_of_append _ _ _ hcontra)
    rw [patChangesSubmit, afterLit]
    simp [hns]

/-- When the `'^changes'` pattern fails, so does `'^changes/select'`. -/
theorem patChangesSelect_none (p : List Char)
    (hpc : patChanges p = none) : patChangesSelect p = none := by
  by_cases hpre : "changes".data.isPrefixOf p = true
  · rw [patChanges, if_pos hpre] at hpc
    cases hpc
  · have hns : ¬ "changes/select".data.isPrefixOf p = true := by
      intro hcontra
      have heq : "changes/select".data =
          "changes".data ++ "/select".data := by decide
      rw [heq] at hcontra
      exact hpre (isPrefixOf_of_append _ _ _ hcontra)
    rw [patChangesSelect]
    simp [hns]

/-- Claim C10: route patterns are unanchored prefixes, and `'^changes'`
(GET-only) is registered before the submit/select routes, so every request
whose path begins with "changes" — including every POST to
/changes/submit/<name> and /changes/select — structurally matches the
`'^changes'` route first: GET dispatches to the changes handler, any other
method resolves to 405, and no request whatsoever dispatches to the
changes_submit_name or changes_select handlers. -/
theorem c10_changes_shadows (p : List Char) (m : String) (req : Request)
    (h : HName) (ps : Params) :
    ("changes".data.isPrefixOf p = true →
      (m = "GET" → find adminRoutes ⟨p, m⟩ = .found HName.changes [])
      ∧ (m ≠ "GET" → find adminRoutes ⟨p, m⟩ = .methodNotAllowed))
    ∧ (find adminRoutes req = .found h ps →
      h ≠ HName.changes_submit_name ∧ h ≠ HName.changes_select) := by
  constructor
  · intro hp
    obtain ⟨rest, rfl⟩ := changes_prefix_decompose p hp
    constructor
    · intro hm
      rw [find_on_changes_path rest m, if_pos hm]
    · intro hm
      rw [find_on_changes_path rest m, if_neg hm]
  · intro hf
    cases hpc : patChanges req.path with
    | some ps0 =>
      have hstop := find_stops_at_match adminRoutesBeforeChanges
        adminRoutesAfterChanges [] changesRoute req
        (by rw [show changesRoute.pattern = patChanges from rfl, hpc]; simp)
      rw [adminRoutes_decompose, hstop] at hf
      obtain ⟨r, hmem, hh, _⟩ := find_found_mem _ req h ps hf
      simp only [adminRoutesBeforeChanges, changesRoute, List.mem_append,
        List.mem_cons, List.not_mem_nil, or_false] at hmem
      rcases hmem with (rfl | rfl | rfl | rfl | rfl | rfl | rfl) | rfl <;>
        exact hh ▸ (by decide)
    | none =>
      have hsub := patChangesSubmit_none req.path hpc
      have hsel := patChangesSelect_none req.path hpc
      obtain ⟨r, hmem, hh, hrp⟩ := find_found_mem adminRoutes req h ps hf
      simp only [adminRoutes, List.mem_cons, List.not_mem_nil,
        or_false] at hmem
      rcases hmem with rfl | rfl | rfl | rfl | rfl | rfl | rfl | rfl | rfl |
        rfl | rfl | rfl | rfl | rfl
      all_goals first
        | (exact hh ▸ (by decide))
        | (simp [hsub, hsel] at hrp)

/-- Witness for C10 at concrete requests: POSTs under /changes resolve to
405, a GET to /changes dispatches to the changes handler, and a dispatch
that does land on a handler (the profile index route) is not one of the
shadowed handlers. -/
theorem c10_witness :
    find adminRoutes ⟨"changes/select".data, "POST"⟩ = .methodNotAllowed
    ∧ find adminRoutes ⟨"changes/submit/a".data, "POST"⟩ = .methodNotAllowed
    ∧ find adminRoutes ⟨"changes".data, "GET"⟩ = .found HName.changes []
    ∧ (HName.profiles ≠ HName.changes_submit_name
       ∧ HName.profiles ≠ HName.changes_select) := by
  refine ⟨?_, ?_, ?_, ?_⟩
  · exact ((c10_changes_shadows "changes/select".data "POST"
      ⟨"profiles/".data, "GET"⟩ .profiles []).1 (by decide)).2 (by decide)
  · exact ((c10_changes_shadows "changes/submit/a".data "POST"
      ⟨"profiles/".data, "GET"⟩ .profiles []).1 (by decide)).2 (by decide)
  · exact ((c10_changes_shadows "changes".data "GET"
      ⟨"profiles/".data, "GET"⟩ .profiles []).1 (by decide)).1 rfl
  · exact (c10_changes_shadows "changes".data "GET"
      ⟨"profiles/".data, "GET"⟩ .profiles []).2 (by decide)

/-- Witness for C2 (amended) at a concrete state: a pending token "u" with a
differing supplied id yields the "nonexisting uid" error. -/
theorem c2_witness :
    (profiles_save stPendingA "x" none).1 =
      .ret (.rawPair nonexistinguidBody 403) :=
  ((c2_save_error_cases stPendingA "x" none).1).mpr
    (Or.inr (Or.inr (by decide)))

/-- Witness for C9 at a concrete directory state. -/
theorem c9_witness :
    check_for_profile_index (check_for_profile_index stIdle.fs) =
      check_for_profile_index stIdle.fs
    ∧ (check_for_profile_index
        { stIdle.fs with indexFile := none }).indexFile = some (.arr []) := by
  have h := c9_ensure_index_idempotent stIdle.fs
  exact ⟨h.1, h.2.1⟩
